import Mathlib

/-!
Verification of the DDC/CI display-service locator and I2C transaction
executor (`src/arm.rs` of ddc-macos-rs), as a shallow embedding.

External collaborators (IOKit registry calls, CoreDisplay info dictionary,
IOAVService I2C calls, thread sleep) are modelled as explicit environment
data; the control flow of `execute`, `get_display_av_service`,
`i2c_address`, `get_service_registry_entry_path` and
`get_service_registry_entry_name` is translated from the source.
Side effects are modelled as event traces so that ordering and
call-count properties are provable.
-/

namespace DdcMacos

/-- The error taxonomy of the crate. Modelled from the spec: the `Error`
enum lives in `crate::error`, which is not under `src/`; the spec (§7)
gives `ServiceNotFound`, `DisplayLocationNotFound` and `Kernel(code)`. -/
inductive Error where
  | ServiceNotFound
  | DisplayLocationNotFound
  | Kernel (code : Int)
deriving DecidableEq, Repr

/-- A CoreFoundation value as far as this code inspects one: either a
string (`CFString`) or some other typed value. `downcast::<CFString>`
succeeds exactly on the `str` constructor, and `CFType` equality with a
`CFString` holds exactly when the value is that string. -/
inductive CFValue where
  | str (s : String)
  | other (tag : Nat)
deriving DecidableEq, Repr

/-- Modelled from the spec: `verify_io` (in `crate::error`, not under
`src/`) maps a kernel/OSStatus code to success when it is 0 and to a
typed `Kernel(code)` error otherwise, never silently ignoring it. -/
def verify_io (status : Int) : Except Error Unit :=
  if status = 0 then Except.ok () else Except.error (Error.Kernel status)

/-- Modelled from the spec: the `kern_try!` macro (crate root, not under
`src/`) checks a kernel status and fails with `Kernel(code)` when it is
not `KERN_SUCCESS` (0). -/
def kern_try (status : Int) : Except Error Unit :=
  if status = 0 then Except.ok () else Except.error (Error.Kernel status)

/-- `SUB_ADDRESS_DDC_CI` from the external `ddc` crate: the DDC/CI
sub-address used for every write transaction. -/
def SUB_ADDRESS_DDC_CI : Nat := 0x51

/-- `I2C_ADDRESS_DDC_CI` from the external `ddc` crate: the standard
DDC/CI I2C slave address. -/
def I2C_ADDRESS_DDC_CI : Nat := 0x37

/-- `I2C_ADDRESS_DDC_CI_MDCP29XX` (src/arm.rs): the non-standard slave
address used behind the MDCP29xx DisplayPort-to-HDMI bridge chip. -/
def I2C_ADDRESS_DDC_CI_MDCP29XX : Nat := 0xB7

/-- Observable side effects of one `execute` call: the I2C write (with
chip address, sub-address and transmitted payload), the settle sleep
(with its duration), and the I2C read (chip address, offset, length). -/
inductive Event where
  | write (address : Nat) (subAddress : Nat) (payload : List Nat)
  | sleep (delay : Nat)
  | read (address : Nat) (offset : Nat) (len : Nat)
deriving DecidableEq, Repr

/-- Environment for one `execute` call: the status the external
`IOAVServiceWriteI2C` call would return, the status the external
`IOAVServiceReadI2C` call would return, and the bytes the device
delivers for a read of a given length. -/
structure I2CEnv where
  writeStatus : Int
  readStatus : Int
  readFill : Nat → List Nat

/-- The bytes of a buffer after the kernel copies `fill` into its front:
the copied prefix followed by the untouched suffix.  Always has the
buffer's length. -/
def overwrite (buf fill : List Nat) : List Nat :=
  fill.take buf.length ++ buf.drop fill.length

/-- Result of one `execute` call: the returned `Result` value, the
contents of the caller's `out` buffer after the call (the returned slice
on the read path is this very buffer), and the trace of side effects. -/
structure ExecResult where
  result : Except Error (List Nat)
  outAfter : List Nat
  events : List Event
deriving Repr

/-- `execute` (src/arm.rs): write `request_data[1..]` (the leading I2C
address byte is stripped) with length `request_data.len() - 1`; if `out`
is non-empty, sleep for `response_delay`, then read `out.len()` bytes at
offset 0 into `out` and return it; if `out` is empty, return an empty
slice.  Indexing `request_data[1..]` panics when the request buffer is
empty, modelled as `none`. -/
def execute (env : I2CEnv) (i2c_address : Nat) (request_data : List Nat)
    (out : List Nat) (response_delay : Nat) : Option ExecResult :=
  if request_data = [] then
    none
  else
    let writeEv := Event.write i2c_address SUB_ADDRESS_DDC_CI request_data.tail
    match verify_io env.writeStatus with
    | Except.error e => some ⟨Except.error e, out, [writeEv]⟩
    | Except.ok _ =>
      if out ≠ [] then
        let evs := [writeEv, Event.sleep response_delay,
          Event.read i2c_address 0 out.length]
        match verify_io env.readStatus with
        | Except.error e => some ⟨Except.error e, out, evs⟩
        | Except.ok _ =>
          let outAfter := overwrite out (env.readFill out.length)
          some ⟨Except.ok outAfter, outAfter, evs⟩
      else
        some ⟨Except.ok [], out, [writeEv]⟩

/-- The parent of a registry node in the service plane, as far as
`i2c_address` inspects it: its "EPICProviderClass" property (`none` when
`IORegistryEntryCreateCFProperty` returns null). -/
structure ParentNode where
  epicProviderClass : Option CFValue
deriving DecidableEq, Repr

/-- A node yielded by the registry iterator, carrying the data every
external call made on it would observe: the status and buffer of
`IORegistryEntryGetPath`, the status and buffer of
`IORegistryEntryGetName`, its "Location" property (`none` = null), the
`IOAVServiceCreateWithService` result (`none` = null handle), and the
status and value of the `IORegistryEntryGetParentEntry` lookup. -/
structure RegNode where
  pathStatus : Int
  pathBuf : String
  nameStatus : Int
  nameBuf : String
  locationProp : Option CFValue
  avService : Option Nat
  parentStatus : Int
  parentNode : ParentNode
deriving DecidableEq, Repr

/-- `get_service_registry_entry_path` (src/arm.rs): `kern_try!` on the
`IORegistryEntryGetPath` status, then decode the filled buffer. -/
def get_service_registry_entry_path (n : RegNode) : Except Error String :=
  match kern_try n.pathStatus with
  | Except.error e => Except.error e
  | Except.ok _ => Except.ok n.pathBuf

/-- `get_service_registry_entry_name` (src/arm.rs): `kern_try!` on the
`IORegistryEntryGetName` status, then decode the filled buffer. -/
def get_service_registry_entry_name (n : RegNode) : Except Error String :=
  match kern_try n.nameStatus with
  | Except.error e => Except.error e
  | Except.ok _ => Except.ok n.nameBuf

/-- `i2c_address` (src/arm.rs): if the parent lookup in the service plane
does not return `KERN_SUCCESS`, return the standard address; otherwise
read the parent's "EPICProviderClass" property; if null, standard
address; if it equals the string "AppleDCPMCDP29XX", the bridge-specific
address; otherwise the standard address. -/
def i2c_address (service : RegNode) : Nat :=
  if service.parentStatus ≠ 0 then
    I2C_ADDRESS_DDC_CI
  else
    match service.parentNode.epicProviderClass with
    | none => I2C_ADDRESS_DDC_CI
    | some classRef =>
      if classRef = CFValue.str "AppleDCPMCDP29XX" then
        I2C_ADDRESS_DDC_CI_MDCP29XX
      else
        I2C_ADDRESS_DDC_CI

/-- A display as `get_display_av_service` observes it: the
`CGDisplay::is_builtin` predicate, and the CoreDisplay info dictionary
(key/value pairs, looked up by `CFDictionary::find`). -/
structure Display where
  isBuiltin : Bool
  infoDict : List (String × CFValue)

/-- Observable registry-side effects of one `get_display_av_service`
call: opening the root iterator, pulling the next node from it, and the
per-node path / name / `IOAVServiceCreateWithService` / "Location"
property calls. -/
inductive LocEvent where
  | rootOpen
  | iterNext
  | pathCall
  | nameCall
  | createAV
  | locProp
deriving DecidableEq, Repr

/-- The inner `while let Some(service) = iter.next()` loop of
`get_display_av_service` (src/arm.rs), entered after a location match:
keep pulling from the same iterator; a name-resolution error propagates
via `?`; on a "DCPAVServiceProxy" name, construct the AV service and
fetch the "Location" property; when the property is non-null, the handle
non-null and the property equals the external-location string, return
the handle and resolved address; otherwise keep searching; exhaustion
falls through to `Err(ServiceNotFound)`. -/
def proxyLoop (ext : CFValue) : List RegNode → Except Error (Nat × Nat) × List LocEvent
  | [] => (Except.error Error.ServiceNotFound, [LocEvent.iterNext])
  | n :: rest =>
    match get_service_registry_entry_name n with
    | Except.error e => (Except.error e, [LocEvent.iterNext, LocEvent.nameCall])
    | Except.ok nm =>
      if nm = "DCPAVServiceProxy" then
        match n.locationProp with
        | none =>
          ((proxyLoop ext rest).1,
            [LocEvent.iterNext, LocEvent.nameCall, LocEvent.createAV,
              LocEvent.locProp] ++ (proxyLoop ext rest).2)
        | some loc =>
          match n.avService with
          | some av =>
            if loc = ext then
              (Except.ok (av, i2c_address n),
                [LocEvent.iterNext, LocEvent.nameCall, LocEvent.createAV,
                  LocEvent.locProp])
            else
              ((proxyLoop ext rest).1,
                [LocEvent.iterNext, LocEvent.nameCall, LocEvent.createAV,
                  LocEvent.locProp] ++ (proxyLoop ext rest).2)
          | none =>
            ((proxyLoop ext rest).1,
              [LocEvent.iterNext, LocEvent.nameCall, LocEvent.createAV,
                LocEvent.locProp] ++ (proxyLoop ext rest).2)
      else
        ((proxyLoop ext rest).1,
          [LocEvent.iterNext, LocEvent.nameCall] ++ (proxyLoop ext rest).2)

/-- The outer `while let Some(service) = iter.next()` loop of
`get_display_av_service` (src/arm.rs): per node, attempt path
resolution; `if let Ok(..)` skips the node on failure; on a path equal to
the display's location string, the inner proxy search consumes the rest
of the same iterator and its outcome is final (on inner exhaustion the
outer loop observes the exhausted iterator with one more `next()` and
exits); on a non-matching path, continue the outer scan. -/
def locateLoop (location : String) (ext : CFValue) :
    List RegNode → Except Error (Nat × Nat) × List LocEvent
  | [] => (Except.error Error.ServiceNotFound, [LocEvent.iterNext])
  | n :: rest =>
    match get_service_registry_entry_path n with
    | Except.error _ =>
      ((locateLoop location ext rest).1,
        [LocEvent.iterNext, LocEvent.pathCall] ++ (locateLoop location ext rest).2)
    | Except.ok rl =>
      if rl = location then
        ((proxyLoop ext rest).1,
          [LocEvent.iterNext, LocEvent.pathCall] ++ (proxyLoop ext rest).2 ++
            (match (proxyLoop ext rest).1 with
              | Except.error Error.ServiceNotFound => [LocEvent.iterNext]
              | _ => []))
      else
        ((locateLoop location ext rest).1,
          [LocEvent.iterNext, LocEvent.pathCall] ++ (locateLoop location ext rest).2)

/-- `get_display_av_service` (src/arm.rs): reject built-in displays with
`ServiceNotFound` before anything else; look up "IODisplayLocation" in
the display's info dictionary, failing with `DisplayLocationNotFound`
when the key is absent or its value is not a string; open the root
registry iterator (`IoIterator::root()` is in `crate::iokit`, not under
`src/`; modelled from the spec (§4.1) as fallible construction whose
error propagates via `?`, here the `rootErr` parameter); then run the
outer location scan over the yielded nodes.  Returns the result paired
with the trace of registry events. -/
def get_display_av_service (display : Display) (rootErr : Option Error)
    (registry : List RegNode) : Except Error (Nat × Nat) × List LocEvent :=
  if display.isBuiltin then
    (Except.error Error.ServiceNotFound, [])
  else
    match display.infoDict.lookup "IODisplayLocation" with
    | none => (Except.error Error.DisplayLocationNotFound, [])
    | some (CFValue.str location) =>
      match rootErr with
      | some e => (Except.error e, [LocEvent.rootOpen])
      | none =>
        ((locateLoop location (CFValue.str "External") registry).1,
          LocEvent.rootOpen :: (locateLoop location (CFValue.str "External") registry).2)
    | some _ => (Except.error Error.DisplayLocationNotFound, [])

/-- A registry node qualifies as the AV service proxy for an external
location value: proxy name, non-null "Location" property equal to the
external value, and a non-null constructed AV handle. -/
def qualifies (ext : CFValue) (n : RegNode) : Prop :=
  get_service_registry_entry_name n = Except.ok "DCPAVServiceProxy" ∧
    n.locationProp = some ext ∧ n.avService.isSome = true

/-- The proxy search found its first qualifying candidate in `l`: some
node with the proxy name, a non-null AV handle `av`, a present "Location"
property equal to `ext`, and address `addr` resolved from that node, with
every earlier node non-qualifying. -/
def ProxyFound (ext : CFValue) (l : List RegNode) (av addr : Nat) : Prop :=
  ∃ pre n post, l = pre ++ n :: post ∧ (∀ m ∈ pre, ¬ qualifies ext m) ∧
    get_service_registry_entry_name n = Except.ok "DCPAVServiceProxy" ∧
    n.avService = some av ∧ n.locationProp = some ext ∧ addr = i2c_address n

/-- A concrete external display whose location string is "disp0". -/
def sampleDisplay : Display :=
  ⟨false, [("IODisplayLocation", CFValue.str "disp0")]⟩

/-- A concrete registry node whose resolved path is "disp0". -/
def sampleMatchNode : RegNode :=
  ⟨0, "disp0", 0, "node", none, none, 1, ⟨none⟩⟩

/-- A concrete qualifying proxy node: proxy name, external location,
non-null AV handle, failed parent lookup (standard address). -/
def sampleProxyNode : RegNode :=
  ⟨0, "q", 0, "DCPAVServiceProxy", some (CFValue.str "External"), some 7, 1, ⟨none⟩⟩

/-- A concrete proxy-named node that does not qualify: its "Location"
property is absent and its AV handle is null. -/
def sampleBadNode : RegNode :=
  ⟨0, "x", 0, "DCPAVServiceProxy", none, none, 1, ⟨none⟩⟩

/-- A concrete node whose path resolution fails with kernel status 5. -/
def samplePathErrNode : RegNode :=
  ⟨5, "", 0, "x", none, none, 1, ⟨none⟩⟩

/-- A concrete node whose name resolution fails with kernel status 6. -/
def sampleNameErrNode : RegNode :=
  ⟨0, "", 6, "", none, none, 1, ⟨none⟩⟩

/-- A concrete two-node registry: a location match followed by a
qualifying proxy. -/
def sampleRegistry : List RegNode :=
  [sampleMatchNode, sampleProxyNode]

lemma overwrite_length (buf fill : List Nat) : (overwrite buf fill).length = buf.length := by
  simp [overwrite]
  omega

lemma execute_isSome (env : I2CEnv) (addr : Nat) (req out : List Nat) (d : Nat)
    (hreq : req ≠ []) : (execute env addr req out d).isSome = true := by
  simp only [execute, if_neg hreq]
  split
  · rfl
  · split
    · split
      · rfl
      · rfl
    · rfl

/-- C3: `i2c_address` returns the bridge-specific constant `0xB7` exactly
when the parent lookup in the service plane succeeds (`KERN_SUCCESS`) and
the parent's "EPICProviderClass" property is present and equals
"AppleDCPMCDP29XX"; in every other case it returns the standard DDC/CI
address `0x37`. -/
theorem i2c_address_bridge_quirk (n : RegNode) :
    (i2c_address n = I2C_ADDRESS_DDC_CI_MDCP29XX ∨ i2c_address n = I2C_ADDRESS_DDC_CI) ∧
    (i2c_address n = I2C_ADDRESS_DDC_CI_MDCP29XX ↔
      n.parentStatus = 0 ∧
        n.parentNode.epicProviderClass = some (CFValue.str "AppleDCPMCDP29XX")) := by
  unfold i2c_address
  by_cases hp : n.parentStatus = 0
  · rcases hc : n.parentNode.epicProviderClass with _ | c
    · simp [hp, hc, I2C_ADDRESS_DDC_CI, I2C_ADDRESS_DDC_CI_MDCP29XX]
    · by_cases hcs : c = CFValue.str "AppleDCPMCDP29XX"
      · simp [hp, hc, hcs, I2C_ADDRESS_DDC_CI, I2C_ADDRESS_DDC_CI_MDCP29XX]
      · simp [hp, hc, hcs, I2C_ADDRESS_DDC_CI, I2C_ADDRESS_DDC_CI_MDCP29XX]
  · simp [hp, I2C_ADDRESS_DDC_CI, I2C_ADDRESS_DDC_CI_MDCP29XX]

/-- C4: with a non-empty request and a non-empty output buffer of length
N, a successful `execute` performs exactly one I2C write, then one sleep
of exactly the configured response delay, then one I2C read of exactly
length N at read-offset zero, in that order, and the returned slice is
the caller's output buffer itself (the `result` value and the `outAfter`
buffer are one and the same list, of length N). -/
theorem execute_read_path (env : I2CEnv) (addr : Nat) (req out : List Nat) (d : Nat)
    (hreq : req ≠ []) (hout : out ≠ [])
    (hw : env.writeStatus = 0) (hr : env.readStatus = 0) :
    execute env addr req out d =
      some ⟨Except.ok (overwrite out (env.readFill out.length)),
        overwrite out (env.readFill out.length),
        [Event.write addr SUB_ADDRESS_DDC_CI req.tail, Event.sleep d,
          Event.read addr 0 out.length]⟩ ∧
    (overwrite out (env.readFill out.length)).length = out.length := by
  constructor
  · simp [execute, verify_io, hreq, hout, hw, hr]
  · exact overwrite_length out (env.readFill out.length)

/-- Witness for C4 at a concrete environment and buffers. -/
theorem execute_read_path_witness :
    execute ⟨0, 0, fun k => List.replicate k 0xAA⟩ 0x37 [0x6E, 0x51] [0, 0] 5 =
      some ⟨Except.ok [0xAA, 0xAA], [0xAA, 0xAA],
        [Event.write 0x37 SUB_ADDRESS_DDC_CI [0x51], Event.sleep 5,
          Event.read 0x37 0 2]⟩ ∧
    ([0xAA, 0xAA] : List Nat).length = 2 :=
  execute_read_path ⟨0, 0, fun k => List.replicate k 0xAA⟩ 0x37 [0x6E, 0x51] [0, 0] 5
    (by decide) (by decide) rfl rfl

/-- C5: with a non-empty request and an empty output buffer, a successful
`execute` performs exactly one I2C write whose payload is the request
with its first (address) byte stripped — length equal to the request
length minus one — no sleep, no read, and returns an empty slice. -/
theorem execute_write_only (env : I2CEnv) (addr : Nat) (req : List Nat) (d : Nat)
    (hreq : req ≠ []) (hw : env.writeStatus = 0) :
    execute env addr req [] d =
      some ⟨Except.ok [], [], [Event.write addr SUB_ADDRESS_DDC_CI req.tail]⟩ ∧
    req.tail.length + 1 = req.length := by
  constructor
  · simp [execute, verify_io, hreq, hw]
  · cases req with
    | nil => exact absurd rfl hreq
    | cons a l => simp

/-- Witness for C5 at the spec's concrete request
`[addr_byte, 0x51, 0x82, 0x01, 0x10]`: payload `[0x51, 0x82, 0x01, 0x10]`
of length 4, no sleep, no read. -/
theorem execute_write_only_witness :
    execute ⟨0, 0, fun k => List.replicate k 0⟩ 0x37 [0x6E, 0x51, 0x82, 0x01, 0x10] [] 5 =
      some ⟨Except.ok [], [],
        [Event.write 0x37 SUB_ADDRESS_DDC_CI [0x51, 0x82, 0x01, 0x10]]⟩ ∧
    ([0x6E, 0x51, 0x82, 0x01, 0x10] : List Nat).tail.length + 1 = 5 :=
  execute_write_only ⟨0, 0, fun k => List.replicate k 0⟩ 0x37
    [0x6E, 0x51, 0x82, 0x01, 0x10] 5 (by decide) rfl

/-- C6: when the I2C write call returns a non-success status, `execute`
aborts before any sleep and before any read (the trace is the single
write event) and surfaces the failure as a `Kernel` error carrying
exactly the status code returned by the write call; there is no retry. -/
theorem execute_write_failure (env : I2CEnv) (addr : Nat) (req out : List Nat) (d : Nat)
    (hreq : req ≠ []) (hw : env.writeStatus ≠ 0) :
    execute env addr req out d =
      some ⟨Except.error (Error.Kernel env.writeStatus), out,
        [Event.write addr SUB_ADDRESS_DDC_CI req.tail]⟩ := by
  simp [execute, verify_io, hreq, hw]

/-- Witness for C6 at a concrete failing write status. -/
theorem execute_write_failure_witness :
    execute ⟨7, 0, fun _ => []⟩ 0x37 [0x6E, 0x51] [1, 2] 5 =
      some ⟨Except.error (Error.Kernel 7), [1, 2],
        [Event.write 0x37 SUB_ADDRESS_DDC_CI [0x51]]⟩ :=
  execute_write_failure ⟨7, 0, fun _ => []⟩ 0x37 [0x6E, 0x51] [1, 2] 5
    (by decide) (by decide)

/-- C10: `execute` requires a non-empty request buffer: it is undefined
(panics, modelled `none`) exactly on the empty request, and whenever it
is defined the transmitted payload is the request's tail, whose length
plus one equals the request length (the slice and the subtraction are in
bounds). -/
theorem execute_request_precondition (env : I2CEnv) (addr : Nat) (req out : List Nat)
    (d : Nat) :
    (execute env addr req out d = none ↔ req = []) ∧
    (∀ r : ExecResult, execute env addr req out d = some r →
      r.events.head? = some (Event.write addr SUB_ADDRESS_DDC_CI req.tail) ∧
      req.tail.length + 1 = req.length) := by
  by_cases hreq : req = []
  · subst hreq
    refine ⟨by simp [execute], fun r hr => ?_⟩
    simp [execute] at hr
  · have htl : req.tail.length + 1 = req.length := by
      cases req with
      | nil => exact absurd rfl hreq
      | cons a l => simp
    refine ⟨⟨fun hnone => ?_, fun he => absurd he hreq⟩, fun r hr => ?_⟩
    · have hs := execute_isSome env addr req out d hreq
      rw [hnone] at hs
      simp at hs
    · refine ⟨?_, htl⟩
      revert hr
      simp only [execute, if_neg hreq]
      split
      · intro hr
        injection hr with h
        rw [← h]
        rfl
      · split
        · split
          · intro hr
            injection hr with h
            rw [← h]
            rfl
          · intro hr
            injection hr with h
            rw [← h]
            rfl
        · intro hr
          injection hr with h
          rw [← h]
          rfl

lemma name_update (n : RegNode) (a : Int) (b : String) :
    get_service_registry_entry_name { n with pathStatus := a, pathBuf := b } =
      get_service_registry_entry_name n := rfl

lemma i2c_address_fields (a : Int) (b : String) (c : Int) (d : String)
    (e : Option CFValue) (f : Option Nat) (n : RegNode) :
    i2c_address ⟨a, b, c, d, e, f, n.parentStatus, n.parentNode⟩ = i2c_address n := rfl

lemma proxyFound_cons {ext : CFValue} {n : RegNode} {rest : List RegNode} {av addr : Nat}
    (hnq : ¬ qualifies ext n) (hex : ProxyFound ext rest av addr) :
    ProxyFound ext (n :: rest) av addr := by
  obtain ⟨pre, m, post, hsplit, hpre, hq⟩ := hex
  refine ⟨n :: pre, m, post, by rw [hsplit]; rfl, ?_, hq⟩
  intro k hk
  rcases List.mem_cons.mp hk with hk | hk
  · rw [hk]
    exact hnq
  · exact hpre k hk

lemma proxyLoop_ok_split (ext : CFValue) (l : List RegNode) (av addr : Nat)
    (h : (proxyLoop ext l).1 = Except.ok (av, addr)) : ProxyFound ext l av addr := by
  induction l with
  | nil => simp [proxyLoop] at h
  | cons n rest ih =>
    rw [proxyLoop] at h
    cases hn : get_service_registry_entry_name n with
    | error e =>
      rw [hn] at h
      dsimp only at h
      exact Except.noConfusion h
    | ok nm =>
      rw [hn] at h
      dsimp only at h
      by_cases hnm : nm = "DCPAVServiceProxy"
      · rw [if_pos hnm] at h
        cases hloc : n.locationProp with
        | none =>
          rw [hloc] at h
          dsimp only at h
          refine proxyFound_cons ?_ (ih h)
          rintro ⟨-, hq2, -⟩
          rw [hloc] at hq2
          exact Option.noConfusion hq2
        | some loc =>
          rw [hloc] at h
          dsimp only at h
          cases hav : n.avService with
          | none =>
            rw [hav] at h
            dsimp only at h
            refine proxyFound_cons ?_ (ih h)
            rintro ⟨-, -, hq3⟩
            rw [hav] at hq3
            simp at hq3
          | some av2 =>
            rw [hav] at h
            dsimp only at h
            by_cases hle : loc = ext
            · rw [if_pos hle] at h
              dsimp only at h
              simp only [Except.ok.injEq, Prod.mk.injEq] at h
              refine ⟨[], n, rest, rfl, by simp, ?_, ?_, ?_, ?_⟩
              · rw [hn, hnm]
              · rw [hav, h.1]
              · rw [hloc, hle]
              · rw [h.2]
            · rw [if_neg hle] at h
              dsimp only at h
              refine proxyFound_cons ?_ (ih h)
              rintro ⟨-, hq2, -⟩
              rw [hloc] at hq2
              injection hq2 with hq2
              exact hle hq2
      · rw [if_neg hnm] at h
        dsimp only at h
        refine proxyFound_cons ?_ (ih h)
        rintro ⟨hq1, -, -⟩
        rw [hn] at hq1
        injection hq1 with hq1
        exact hnm hq1

lemma locateLoop_ok_split (location : String) (ext : CFValue) (l : List RegNode)
    (p : Nat × Nat) (h : (locateLoop location ext l).1 = Except.ok p) :
    ∃ pre m post, l = pre ++ m :: post ∧
      get_service_registry_entry_path m = Except.ok location ∧
      (proxyLoop ext post).1 = Except.ok p := by
  induction l with
  | nil => simp [locateLoop] at h
  | cons n rest ih =>
    rw [locateLoop] at h
    cases hp : get_service_registry_entry_path n with
    | error e =>
      rw [hp] at h
      dsimp only at h
      obtain ⟨pre, m, post, hsplit, hpath, hpx⟩ := ih h
      exact ⟨n :: pre, m, post, by rw [hsplit]; rfl, hpath, hpx⟩
    | ok rl =>
      rw [hp] at h
      dsimp only at h
      by_cases hrl : rl = location
      · rw [if_pos hrl] at h
        dsimp only at h
        exact ⟨[], n, rest, rfl, by rw [hp, hrl], h⟩
      · rw [if_neg hrl] at h
        dsimp only at h
        obtain ⟨pre, m, post, hsplit, hpath, hpx⟩ := ih h
        exact ⟨n :: pre, m, post, by rw [hsplit]; rfl, hpath, hpx⟩

lemma locateLoop_match (location : String) (ext : CFValue) (m : RegNode)
    (rest : List RegNode)
    (hpath : get_service_registry_entry_path m = Except.ok location) :
    (locateLoop location ext (m :: rest)).1 = (proxyLoop ext rest).1 := by
  rw [locateLoop, hpath]
  dsimp only
  rw [if_pos rfl]

lemma proxyLoop_path_irrelevant (ext : CFValue) (l : List RegNode)
    (pf : RegNode → Int) (pb : RegNode → String) :
    proxyLoop ext (l.map fun n => { n with pathStatus := pf n, pathBuf := pb n }) =
      proxyLoop ext l := by
  induction l with
  | nil => rfl
  | cons n rest ih =>
    simp only [List.map_cons]
    rw [proxyLoop, proxyLoop, name_update]
    cases hn : get_service_registry_entry_name n with
    | error e => rfl
    | ok nm =>
      dsimp only
      by_cases hnm : nm = "DCPAVServiceProxy"
      · rw [if_pos hnm, if_pos hnm]
        cases hloc : n.locationProp with
        | none =>
          dsimp only
          rw [ih]
        | some loc =>
          dsimp only
          cases hav : n.avService with
          | none =>
            dsimp only
            rw [ih]
          | some av =>
            dsimp only
            by_cases hle : loc = ext
            · rw [if_pos hle, if_pos hle, i2c_address_fields]
            · rw [if_neg hle, if_neg hle]
              rw [ih]
      · rw [if_neg hnm, if_neg hnm]
        rw [ih]

lemma proxyLoop_skip (ext : CFValue) (n : RegNode) (rest : List RegNode)
    (hn : get_service_registry_entry_name n = Except.ok "DCPAVServiceProxy")
    (hnq : ¬ qualifies ext n) :
    (proxyLoop ext (n :: rest)).1 = (proxyLoop ext rest).1 := by
  rw [proxyLoop, hn]
  dsimp only
  rw [if_pos rfl]
  cases hloc : n.locationProp with
  | none => rfl
  | some loc =>
    dsimp only
    cases hav : n.avService with
    | none => rfl
    | some av =>
      dsimp only
      have hle : loc ≠ ext := by
        intro he
        exact hnq ⟨hn, by rw [hloc, he], by rw [hav]; rfl⟩
      rw [if_neg hle]

lemma proxyLoop_exhaust (ext : CFValue) (l : List RegNode)
    (h : ∀ n ∈ l, (∃ s, get_service_registry_entry_name n = Except.ok s) ∧
      ¬ qualifies ext n) :
    (proxyLoop ext l).1 = Except.error Error.ServiceNotFound := by
  induction l with
  | nil => rfl
  | cons n rest ih =>
    obtain ⟨⟨s, hs⟩, hnq⟩ := h n (List.mem_cons_self n rest)
    have hrest : (proxyLoop ext rest).1 = Except.error Error.ServiceNotFound :=
      ih fun m hm => h m (List.mem_cons_of_mem _ hm)
    rw [proxyLoop, hs]
    dsimp only
    by_cases hnm : s = "DCPAVServiceProxy"
    · rw [if_pos hnm]
      cases hloc : n.locationProp with
      | none => exact hrest
      | some loc =>
        dsimp only
        cases hav : n.avService with
        | none => exact hrest
        | some av =>
          dsimp only
          have hle : loc ≠ ext := by
            intro he
            exact hnq ⟨by rw [hs, hnm], by rw [hloc, he], by rw [hav]; rfl⟩
          rw [if_neg hle]
          exact hrest
    · rw [if_neg hnm]
      exact hrest

/-- C1: `get_display_av_service` returns a `(handle, address)` pair only
for a non-built-in display whose location string is found, and only from
a candidate node, encountered after a location-matching node, whose name
equals "DCPAVServiceProxy", whose constructed AV handle is non-null (the
returned handle), and whose "Location" property is present and equal to
"External"; the returned address is that candidate's resolved address,
and it is the first qualifying candidate after the location match. -/
theorem locate_returns_only_qualifying (display : Display) (rootErr : Option Error)
    (registry : List RegNode) (av addr : Nat)
    (h : (get_display_av_service display rootErr registry).1 = Except.ok (av, addr)) :
    display.isBuiltin = false ∧
    ∃ location, display.infoDict.lookup "IODisplayLocation" = some (CFValue.str location) ∧
      ∃ pre m rest, registry = pre ++ m :: rest ∧
        get_service_registry_entry_path m = Except.ok location ∧
        ProxyFound (CFValue.str "External") rest av addr := by
  rw [get_display_av_service] at h
  by_cases hb : display.isBuiltin
  · rw [if_pos hb] at h
    exact Except.noConfusion h
  · rw [if_neg hb] at h
    refine ⟨by simpa using hb, ?_⟩
    cases hl : display.infoDict.lookup "IODisplayLocation" with
    | none =>
      rw [hl] at h
      exact Except.noConfusion h
    | some v =>
      rw [hl] at h
      cases v with
      | str location =>
        dsimp only at h
        cases rootErr with
        | some e => exact Except.noConfusion h
        | none =>
          dsimp only at h
          obtain ⟨pre, m, rest, hsplit, hpath, hpx⟩ :=
            locateLoop_ok_split location (CFValue.str "External") registry (av, addr) h
          exact ⟨location, rfl, pre, m, rest, hsplit, hpath,
            proxyLoop_ok_split (CFValue.str "External") rest av addr hpx⟩
      | other t => exact Except.noConfusion h

/-- Witness for C1 on a concrete registry where the locator succeeds. -/
theorem locate_returns_only_qualifying_witness :
    sampleDisplay.isBuiltin = false ∧
    ∃ location,
      sampleDisplay.infoDict.lookup "IODisplayLocation" = some (CFValue.str location) ∧
      ∃ pre m rest, sampleRegistry = pre ++ m :: rest ∧
        get_service_registry_entry_path m = Except.ok location ∧
        ProxyFound (CFValue.str "External") rest 7 0x37 :=
  locate_returns_only_qualifying sampleDisplay none sampleRegistry 7 0x37 rfl

/-- C2: after a location match the proxy search continues on the same
iterator (the outer call's outcome is the inner search over the
remaining nodes, not a restarted scan); the inner search's outcome never
depends on the remaining nodes' resolved paths, so a later node whose
path also matches the location is never examined as a new outer match; a
proxy-named candidate that does not qualify is skipped and the search
continues on the same iterator; and when every remaining node resolves a
name and none qualifies, the search exhausts with `ServiceNotFound`. -/
theorem locate_shared_iterator_semantics :
    (∀ (location : String) (ext : CFValue) (m : RegNode) (rest : List RegNode),
      get_service_registry_entry_path m = Except.ok location →
      (locateLoop location ext (m :: rest)).1 = (proxyLoop ext rest).1) ∧
    (∀ (ext : CFValue) (l : List RegNode) (pf : RegNode → Int) (pb : RegNode → String),
      proxyLoop ext (l.map fun n => { n with pathStatus := pf n, pathBuf := pb n }) =
        proxyLoop ext l) ∧
    (∀ (ext : CFValue) (n : RegNode) (rest : List RegNode),
      get_service_registry_entry_name n = Except.ok "DCPAVServiceProxy" →
      ¬ qualifies ext n →
      (proxyLoop ext (n :: rest)).1 = (proxyLoop ext rest).1) ∧
    (∀ (ext : CFValue) (l : List RegNode),
      (∀ n ∈ l, (∃ s, get_service_registry_entry_name n = Except.ok s) ∧
        ¬ qualifies ext n) →
      (proxyLoop ext l).1 = Except.error Error.ServiceNotFound) :=
  ⟨locateLoop_match, proxyLoop_path_irrelevant, proxyLoop_skip, proxyLoop_exhaust⟩

/-- Witness for C2 at concrete nodes: delegation to the inner search on a
path match, path-irrelevance of the inner search, skipping of a
non-qualifying proxy-named candidate, and exhaustion. -/
theorem locate_shared_iterator_semantics_witness :
    (locateLoop "disp0" (CFValue.str "External") (sampleMatchNode :: [sampleProxyNode])).1 =
      (proxyLoop (CFValue.str "External") [sampleProxyNode]).1 ∧
    proxyLoop (CFValue.str "External")
        ([sampleBadNode].map fun n => { n with pathStatus := 0, pathBuf := "disp0" }) =
      proxyLoop (CFValue.str "External") [sampleBadNode] ∧
    (proxyLoop (CFValue.str "External") (sampleBadNode :: [sampleProxyNode])).1 =
      (proxyLoop (CFValue.str "External") [sampleProxyNode]).1 ∧
    (proxyLoop (CFValue.str "External") [sampleBadNode]).1 =
      Except.error Error.ServiceNotFound :=
  ⟨locate_shared_iterator_semantics.1 "disp0" (CFValue.str "External") sampleMatchNode
      [sampleProxyNode] rfl,
   locate_shared_iterator_semantics.2.1 (CFValue.str "External") [sampleBadNode]
      (fun _ => 0) (fun _ => "disp0"),
   locate_shared_iterator_semantics.2.2.1 (CFValue.str "External") sampleBadNode
      [sampleProxyNode] rfl (by rintro ⟨-, hq2, -⟩; exact Option.noConfusion hq2),
   locate_shared_iterator_semantics.2.2.2 (CFValue.str "External") [sampleBadNode]
      (by
        intro n hn
        simp only [List.mem_singleton] at hn
        subst hn
        exact ⟨⟨"DCPAVServiceProxy", rfl⟩,
          by rintro ⟨-, hq2, -⟩; exact Option.noConfusion hq2⟩)⟩

/-- C7: for a built-in display, `get_display_av_service` returns
`ServiceNotFound` with an empty registry trace — no root open and no
iterator pull — regardless of the registry contents. -/
theorem locate_builtin_no_traversal (display : Display) (rootErr : Option Error)
    (registry : List RegNode) (hb : display.isBuiltin = true) :
    get_display_av_service display rootErr registry =
      (Except.error Error.ServiceNotFound, []) := by
  rw [get_display_av_service, if_pos hb]

/-- Witness for C7 at a concrete built-in display. -/
theorem locate_builtin_no_traversal_witness :
    get_display_av_service ⟨true, []⟩ none sampleRegistry =
      (Except.error Error.ServiceNotFound, []) :=
  locate_builtin_no_traversal ⟨true, []⟩ none sampleRegistry rfl

/-- C8: when the display's info dictionary lacks the "IODisplayLocation"
key or its value is not a string, `get_display_av_service` returns
`DisplayLocationNotFound` (distinct from `ServiceNotFound`) with an
empty registry trace — before the registry walk begins. -/
theorem locate_location_missing (display : Display) (rootErr : Option Error)
    (registry : List RegNode) (hb : display.isBuiltin = false)
    (hl : ∀ s, display.infoDict.lookup "IODisplayLocation" ≠ some (CFValue.str s)) :
    get_display_av_service display rootErr registry =
      (Except.error Error.DisplayLocationNotFound, []) := by
  rw [get_display_av_service, if_neg (by simp [hb])]
  cases hv : display.infoDict.lookup "IODisplayLocation" with
  | none => rfl
  | some v =>
    cases v with
    | str s => exact absurd hv (hl s)
    | other t => rfl

/-- Witness for C8 at a concrete display lacking the location key. -/
theorem locate_location_missing_witness :
    get_display_av_service ⟨false, []⟩ none sampleRegistry =
      (Except.error Error.DisplayLocationNotFound, []) :=
  locate_location_missing ⟨false, []⟩ none sampleRegistry rfl
    (fun _ h => Option.noConfusion h)

/-- Counterexample to C9 as stated: on a registry whose only node's path
resolution fails with kernel status 5, the path resolver does produce
`Kernel 5`, yet `get_display_av_service` silently skips the node and
returns `ServiceNotFound` — the kernel error is not propagated. -/
theorem locate_path_error_not_propagated :
    get_service_registry_entry_path samplePathErrNode = Except.error (Error.Kernel 5) ∧
    (get_display_av_service sampleDisplay none [samplePathErrNode]).1 =
      Except.error Error.ServiceNotFound ∧
    (get_display_av_service sampleDisplay none [samplePathErrNode]).1 ≠
      Except.error (Error.Kernel 5) := by
  refine ⟨rfl, rfl, fun h => ?_⟩
  have h2 : (Except.error Error.ServiceNotFound : Except Error (Nat × Nat)) =
      Except.error (Error.Kernel 5) := h
  injection h2 with h3
  exact Error.noConfusion h3

/-- C9 amended: a non-success kernel status from the per-node name
resolution during the proxy search is mapped to `Kernel(code)` with the
raw code and propagated; a non-success status from the per-node path
resolution during the location scan is not propagated — the node is
skipped and the scan continues. -/
theorem locate_kernel_error_policy_amended :
    (∀ (ext : CFValue) (n : RegNode) (rest : List RegNode) (c : Int), c ≠ 0 →
      n.nameStatus = c →
      (proxyLoop ext (n :: rest)).1 = Except.error (Error.Kernel c)) ∧
    (∀ (location : String) (ext : CFValue) (n : RegNode) (rest : List RegNode) (c : Int),
      c ≠ 0 → n.pathStatus = c →
      (locateLoop location ext (n :: rest)).1 = (locateLoop location ext rest).1) := by
  constructor
  · intro ext n rest c hc hnc
    have hn : get_service_registry_entry_name n = Except.error (Error.Kernel c) := by
      rw [get_service_registry_entry_name, kern_try, hnc, if_neg hc]
    rw [proxyLoop, hn]
  · intro location ext n rest c hc hnc
    have hp : get_service_registry_entry_path n = Except.error (Error.Kernel c) := by
      rw [get_service_registry_entry_path, kern_try, hnc, if_neg hc]
    rw [locateLoop, hp]

/-- Witness for the amended C9 at concrete failing nodes. -/
theorem locate_kernel_error_policy_amended_witness :
    (proxyLoop (CFValue.str "External") [sampleNameErrNode]).1 =
      Except.error (Error.Kernel 6) ∧
    (locateLoop "disp0" (CFValue.str "External") (samplePathErrNode :: [sampleMatchNode])).1 =
      (locateLoop "disp0" (CFValue.str "External") [sampleMatchNode]).1 :=
  ⟨locate_kernel_error_policy_amended.1 (CFValue.str "External") sampleNameErrNode [] 6
      (by decide) rfl,
   locate_kernel_error_policy_amended.2 "disp0" (CFValue.str "External") samplePathErrNode
      [sampleMatchNode] 5 (by decide) rfl⟩

end DdcMacos
